import Mathlib

/-
Verification of the road-quality analysis pipeline.

Shallow embedding of the Python sources:
  * src/services/image_quality/{failure_reasons,heuristics,quality_metrics,
    quality_service,segmentation}.py
  * src/services/road_quality/metrics.py
  * src/services/pipeline/{pipeline_result,road_analysis_pipeline,database_pipeline}.py
  * src/database/services/database_service.py
  * run_parallel_analysis.py (RateLimiter)

Float-valued quantities of the source (scores, fractions, percentages,
timestamps used only through comparison and exact arithmetic) are modelled
as rationals; the embedded arithmetic mirrors the source expressions
exactly.  External capabilities (cv2 pixel statistics, the segmentation
model, the detection model, the PostgreSQL server) are modelled as oracle
inputs carrying the values those capabilities return, while every decision
the repository makes on those values is translated from the source.
Wall-clock metadata timestamps (datetime.now().isoformat()) are omitted
from the embedded records: no claim mentions them.
-/

namespace Road

/-- Embeds src/services/image_quality/failure_reasons.py, enum ImageFailureReason. -/
inductive ImageFailureReason where
  | TOO_BLURRY
  | TOO_DARK
  | TOO_BRIGHT
  | RESOLUTION_TOO_SMALL
  | INSUFFICIENT_ROAD_SURFACE
  | FILE_NOT_FOUND
  | PROCESSING_ERROR
  deriving DecidableEq, Repr

/-- Embeds src/config/quality_config.py, dataclass QualityConfig (its default values). -/
structure QualityConfig where
  blur_threshold : ℚ := 50
  min_width : ℤ := 400
  min_height : ℤ := 300
  dark_threshold : ℚ := 2/10
  bright_threshold : ℚ := 8/10
  dark_pixel_value : ℤ := 50
  bright_pixel_value : ℤ := 205
  min_road_surface_percentage : ℚ := 25
  blur_weight : ℚ := 4/10
  exposure_weight : ℚ := 3/10
  size_weight : ℚ := 3/10
  road_bonus_threshold : ℚ := 25
  max_road_bonus : ℚ := 20
  insufficient_road_penalty : ℚ := -30
  deriving DecidableEq, Repr

/-- Pixel statistics an image yields through cv2 in
src/services/image_quality/heuristics.py: the Laplacian variance, the dark and
bright histogram fractions, and the width and height.  These are the outputs of
the external vision capability; the decisions taken on them are embedded below. -/
structure ImageStats where
  lap_var : ℚ
  dark_frac : ℚ
  bright_frac : ℚ
  width : ℤ
  height : ℤ
  deriving DecidableEq, Repr

/-- Embeds heuristics.py, is_blurry: returns (lap_var < config.blur_threshold, lap_var). -/
def is_blurry (st : ImageStats) (c : QualityConfig) : Bool × ℚ :=
  (decide (st.lap_var < c.blur_threshold), st.lap_var)

/-- Embeds heuristics.py, is_exposed_poorly: too_dark = dark_frac > dark_threshold,
too_bright = bright_frac > bright_threshold; returns (too_dark or too_bright,
(dark_frac, bright_frac)). -/
def is_exposed_poorly (st : ImageStats) (c : QualityConfig) : Bool × (ℚ × ℚ) :=
  ((decide (st.dark_frac > c.dark_threshold) || decide (st.bright_frac > c.bright_threshold)),
    (st.dark_frac, st.bright_frac))

/-- Embeds heuristics.py, is_too_small: returns (w < min_width or h < min_height, (w, h)). -/
def is_too_small (st : ImageStats) (c : QualityConfig) : Bool × (ℤ × ℤ) :=
  ((decide (st.width < c.min_width) || decide (st.height < c.min_height)), (st.width, st.height))

/-- The results dict built by heuristics.py, check_image_quality. -/
structure HeurResult where
  blurry : Bool × ℚ
  poor_exposure : Bool × (ℚ × ℚ)
  too_small : Bool × (ℤ × ℤ)
  usable : Bool
  deriving DecidableEq, Repr

/-- Embeds heuristics.py, check_image_quality, for an image that cv2 could load
(the load-failure branch raises ValueError and is modelled at the evaluate caller). -/
def check_image_quality (st : ImageStats) (c : QualityConfig) : HeurResult :=
  let b := is_blurry st c
  let e := is_exposed_poorly st c
  let s := is_too_small st c
  { blurry := b, poor_exposure := e, too_small := s,
    usable := !(b.1 || e.1 || s.1) }

/-- Embeds src/services/image_quality/quality_metrics.py, dataclass
ImageQualityMetrics (the wall-clock timestamp field is omitted). -/
structure ImageQualityMetrics where
  image_path : String
  overall_score : ℚ
  is_usable : Bool
  failure_reasons : List ImageFailureReason
  blur_score : ℚ
  exposure_score : ℚ
  size_score : ℚ
  road_surface_percentage : ℚ
  has_sufficient_road : Bool
  assessment_version : String
  deriving DecidableEq, Repr

/-- Embeds quality_metrics.py, ImageQualityMetrics.create_failed. -/
def ImageQualityMetrics.create_failed (image_path : String) (r : ImageFailureReason) :
    ImageQualityMetrics :=
  { image_path := image_path
    overall_score := 0
    is_usable := false
    failure_reasons := [r]
    blur_score := 0
    exposure_score := 0
    size_score := 0
    road_surface_percentage := 0
    has_sufficient_road := false
    assessment_version := "1.0.0" }

/-- Oracle inputs to src/services/image_quality/segmentation.py: whether the YOLO
model loaded, whether each path raised, and the road percentage each path computes
from the image (the mask arithmetic itself is the external capability). -/
structure SegEnv where
  model_loaded : Bool
  ai_raises : Bool
  ai_pct : ℚ
  fb_raises : Bool
  fb_load_ok : Bool
  fb_pct : ℚ
  deriving DecidableEq, Repr

/-- Embeds segmentation.py, RoadSegmentation.fallback_segmentation: on any
exception or unloadable image returns (0.0, False); otherwise the computed
percentage with the hardcoded sufficiency test road_percentage >= 20.0. -/
def fallback_segmentation (e : SegEnv) : ℚ × Bool :=
  if e.fb_raises then (0, false)
  else if e.fb_load_ok then (e.fb_pct, decide (e.fb_pct ≥ 20))
  else (0, false)

/-- Embeds segmentation.py, RoadSegmentation.ai_segmentation: on exception falls
back to the traditional method; otherwise the computed percentage with the
hardcoded sufficiency test road_percentage >= 10.0. -/
def ai_segmentation (e : SegEnv) : ℚ × Bool :=
  if e.ai_raises then fallback_segmentation e
  else (e.ai_pct, decide (e.ai_pct ≥ 10))

/-- Embeds segmentation.py, RoadSegmentation.detect_road_surface: dispatches on
model_loaded.  Note that RoadSegmentation receives no QualityConfig: neither path
consults min_road_surface_percentage. -/
def detect_road_surface (e : SegEnv) : ℚ × Bool :=
  if e.model_loaded then ai_segmentation e else fallback_segmentation e

/-- Embeds quality_service.py, ImageQualityService.calculate_blur_score. -/
def calculate_blur_score (blur_result : Bool × ℚ) : ℚ :=
  if blur_result.1 then min 100 (max 0 blur_result.2) else 100

/-- Embeds quality_service.py, ImageQualityService.calculate_exposure_score. -/
def calculate_exposure_score (exposure_result : Bool × (ℚ × ℚ)) : ℚ :=
  if exposure_result.1 then max 0 (100 - max exposure_result.2.1 exposure_result.2.2 * 100)
  else 100

/-- Embeds quality_service.py, ImageQualityService.calculate_size_score
(min_pixels is the hardcoded 400 * 300). -/
def calculate_size_score (size_result : Bool × (ℤ × ℤ)) : ℚ :=
  if size_result.1 then
    min 100 (((size_result.2.1 * size_result.2.2 : ℤ) : ℚ) / (400 * 300) * 100)
  else 100

/-- Embeds quality_service.py, ImageQualityService.calculate_overall_score. -/
def calculate_overall_score (blur_score exposure_score size_score road_percentage : ℚ) : ℚ :=
  let heuristic_score := blur_score * (4/10) + exposure_score * (3/10) + size_score * (3/10)
  let road_bonus := if road_percentage ≥ 25 then min 20 (road_percentage / 5) else -30
  max 0 (min 100 (heuristic_score + road_bonus))

/-- Embeds quality_service.py, ImageQualityService.get_heuristic_failure_reasons. -/
def get_heuristic_failure_reasons (c : QualityConfig) (hr : HeurResult) :
    List ImageFailureReason :=
  (if hr.blurry.1 then [ImageFailureReason.TOO_BLURRY] else [])
    ++ (if hr.poor_exposure.1 then
          (if hr.poor_exposure.2.1 > c.dark_threshold then [ImageFailureReason.TOO_DARK] else [])
            ++ (if hr.poor_exposure.2.2 > c.bright_threshold then
                  [ImageFailureReason.TOO_BRIGHT] else [])
        else [])
    ++ (if hr.too_small.1 then [ImageFailureReason.RESOLUTION_TOO_SMALL] else [])

/-- Oracle inputs to quality_service.py, ImageQualityService.evaluate: whether the
file exists, the pixel statistics (none models a cv2 load failure, which raises
ValueError inside check_image_quality), and the segmentation oracle. -/
structure ImageEnv where
  file_exists : Bool
  stats : Option ImageStats
  seg : SegEnv
  deriving DecidableEq, Repr

/-- Embeds quality_service.py, ImageQualityService.evaluate, additionally
reporting whether Stage 2 (detect_road_surface) was invoked; the second
component is true exactly on the paths where the source calls
self.segmentation.detect_road_surface. -/
def evaluateT (c : QualityConfig) (env : ImageEnv) (image_path : String) :
    ImageQualityMetrics × Bool :=
  if !env.file_exists then
    (ImageQualityMetrics.create_failed image_path ImageFailureReason.FILE_NOT_FOUND, false)
  else
    match env.stats with
    | none =>
        -- check_image_quality raised; caught by the outer except as PROCESSING_ERROR
        (ImageQualityMetrics.create_failed image_path ImageFailureReason.PROCESSING_ERROR, false)
    | some st =>
        let hr := check_image_quality st c
        let blur_score := calculate_blur_score hr.blurry
        let exposure_score := calculate_exposure_score hr.poor_exposure
        let size_score := calculate_size_score hr.too_small
        let heuristic_failure_reasons := get_heuristic_failure_reasons c hr
        if heuristic_failure_reasons ≠ [] then
          ({ image_path := image_path
             overall_score := min blur_score (min exposure_score size_score)
             is_usable := false
             failure_reasons := heuristic_failure_reasons
             blur_score := blur_score
             exposure_score := exposure_score
             size_score := size_score
             road_surface_percentage := 0
             has_sufficient_road := false
             assessment_version := "1.0.0" }, false)
        else
          let seg := detect_road_surface env.seg
          let road_percentage := seg.1
          let has_sufficient_road := seg.2
          let overall_score :=
            calculate_overall_score blur_score exposure_score size_score road_percentage
          let failure_reasons :=
            if has_sufficient_road then ([] : List ImageFailureReason)
            else [ImageFailureReason.INSUFFICIENT_ROAD_SURFACE]
          ({ image_path := image_path
             overall_score := overall_score
             is_usable := failure_reasons.length == 0
             failure_reasons := failure_reasons
             blur_score := blur_score
             exposure_score := exposure_score
             size_score := size_score
             road_surface_percentage := road_percentage
             has_sufficient_road := has_sufficient_road
             assessment_version := "1.0.0" }, true)

/-- Embeds quality_service.py, ImageQualityService.evaluate (result only). -/
def evaluate (c : QualityConfig) (env : ImageEnv) (image_path : String) :
    ImageQualityMetrics :=
  (evaluateT c env image_path).1

/-- Embeds src/services/road_quality/metrics.py, dataclass RoadQualityMetrics
(the wall-clock timestamp field is omitted). -/
structure RoadQualityMetrics where
  overall_quality_score : ℚ
  crack_confidence : ℚ
  crack_severity : String
  pothole_confidence : ℚ
  pothole_count : ℤ
  surface_roughness : ℚ
  lane_marking_visibility : ℚ
  debris_score : ℚ
  weather_condition : String
  assessment_confidence : ℚ
  model_name : String
  model_version : String
  deriving DecidableEq, Repr

/-- The model_predictions dict consumed by RoadQualityMetrics.from_model_output,
with the .get default of each key (the raw detection output is the external
capability). -/
structure ModelPredictions where
  crack_confidence : ℚ := 0
  pothole_confidence : ℚ := 0
  surface_roughness : ℚ := 0
  pothole_count : ℤ := 0
  lane_visibility : ℚ := 1/2
  debris_score : ℚ := 0
  weather_condition : String := "unknown"
  confidence : ℚ := 1/2
  deriving DecidableEq, Repr

/-- The model_info dict consumed by RoadQualityMetrics.from_model_output. -/
structure ModelInfo where
  model_type : String := "unknown"
  version : String := "unknown"
  deriving DecidableEq, Repr

/-- Embeds metrics.py, RoadQualityMetrics.from_model_output: the severity
bucketing, the overall score 100 * (1 - max(crack, pothole, roughness)) clamped
to [0, 100], and the pass-through of the confidence fields (safe_float is an
identity on already-numeric values and performs no clamping). -/
def RoadQualityMetrics.from_model_output (p : ModelPredictions) (info : ModelInfo) :
    RoadQualityMetrics :=
  let crack_conf := p.crack_confidence
  let pothole_conf := p.pothole_confidence
  let roughness := p.surface_roughness
  let crack_severity :=
    if crack_conf < 2/10 then "none"
    else if crack_conf < 5/10 then "minor"
    else if crack_conf < 8/10 then "moderate"
    else "severe"
  let quality_score := 100 * (1 - max crack_conf (max pothole_conf roughness))
  { overall_quality_score := max 0 (min 100 quality_score)
    crack_confidence := crack_conf
    crack_severity := crack_severity
    pothole_confidence := pothole_conf
    pothole_count := p.pothole_count
    surface_roughness := roughness
    lane_marking_visibility := p.lane_visibility
    debris_score := p.debris_score
    weather_condition := p.weather_condition
    assessment_confidence := p.confidence
    model_name := info.model_type
    model_version := info.version }

/-- Embeds src/services/pipeline/pipeline_result.py, dataclass PipelineResult
(wall-clock timestamp, processing_time_ms and pipeline_version metadata omitted). -/
structure PipelineResult where
  image_path : String
  processed_successfully : Bool
  quality_metrics : ImageQualityMetrics
  road_metrics : Option RoadQualityMetrics
  deriving DecidableEq, Repr

/-- Embeds pipeline_result.py, PipelineResult.create_quality_failed. -/
def PipelineResult.create_quality_failed (image_path : String)
    (quality_metrics : ImageQualityMetrics) : PipelineResult :=
  { image_path := image_path
    processed_successfully := false
    quality_metrics := quality_metrics
    road_metrics := none }

/-- Embeds pipeline_result.py, PipelineResult.create_success. -/
def PipelineResult.create_success (image_path : String)
    (quality_metrics : ImageQualityMetrics) (road_metrics : RoadQualityMetrics) :
    PipelineResult :=
  { image_path := image_path
    processed_successfully := true
    quality_metrics := quality_metrics
    road_metrics := some road_metrics }

/-- Embeds src/services/pipeline/road_analysis_pipeline.py,
RoadAnalysisPipeline.process_image, additionally reporting whether the Defect
Analyzer (self.road_service.assess_road_quality) was invoked.  The quality
service is already embedded as evaluate; the road service call is modelled by
its returned value (road : Option RoadQualityMetrics — assess_road_quality
returns None when preprocessing fails) together with road_raises, the case in
which assess_road_quality raises RuntimeError (caught by the except branch). -/
def process_imageT (c : QualityConfig) (env : ImageEnv)
    (road : Option RoadQualityMetrics) (road_raises : Bool) (image_path : String) :
    PipelineResult × Bool :=
  let quality_metrics := evaluate c env image_path
  if !quality_metrics.is_usable then
    (PipelineResult.create_quality_failed image_path quality_metrics, false)
  else if road_raises then
    -- assess_road_quality raised; the outer except returns a synthetic failure
    (PipelineResult.create_quality_failed image_path
      (ImageQualityMetrics.create_failed image_path ImageFailureReason.PROCESSING_ERROR), true)
  else
    match road with
    | none =>
        (PipelineResult.create_quality_failed image_path
          (ImageQualityMetrics.create_failed image_path ImageFailureReason.PROCESSING_ERROR),
          true)
    | some road_metrics =>
        (PipelineResult.create_success image_path quality_metrics road_metrics, true)

/-- Embeds road_analysis_pipeline.py, RoadAnalysisPipeline.process_image (result only). -/
def process_image (c : QualityConfig) (env : ImageEnv)
    (road : Option RoadQualityMetrics) (road_raises : Bool) (image_path : String) :
    PipelineResult :=
  (process_imageT c env road road_raises image_path).1

/-
Database model (src/database/services/database_service.py).

DatabaseService.transaction() is a contextmanager that calls
get_connection(), which opens a FRESH psycopg2 connection on every call, and
commits it when the with-block exits normally.  Each of save_photo,
save_quality_result and save_road_analysis_result wraps its single INSERT in
its own `with self.transaction() as conn:`; each therefore commits its insert
on its own connection as soon as it returns.  Consequently these operations
are embedded as state transformers that either fail (the INSERT raised,
rolling back only that one statement) or return the id together with the
already-committed new state.
-/

/-- A row of the photos table. -/
structure PhotoRow where
  id : ℕ
  source : String
  source_image_id : Option String
  location : Option (ℚ × ℚ)
  date_taken : Option ℤ
  compass_angle : Option ℚ
  street_point_id : Option ℕ
  deriving DecidableEq, Repr

/-- A row of the quality_results table (columns written by save_quality_result). -/
structure QualityRow where
  id : ℕ
  photo_id : ℕ
  overall_score : ℚ
  blur_score : ℚ
  exposure_score : ℚ
  size_score : ℚ
  road_surface_percentage : ℚ
  has_sufficient_road : Bool
  is_usable : Bool
  failure_reasons : List ImageFailureReason
  assessment_version : String
  deriving DecidableEq, Repr

/-- A row of the road_analysis_results table (columns written by
save_road_analysis_result). -/
structure RoadRow where
  id : ℕ
  photo_id : ℕ
  overall_quality_score : ℚ
  quality_rating : String
  crack_confidence : ℚ
  crack_severity : String
  pothole_confidence : ℚ
  pothole_count : ℤ
  surface_roughness : ℚ
  lane_marking_visibility : ℚ
  debris_score : ℚ
  weather_condition : String
  assessment_confidence : ℚ
  model_name : String
  model_version : String
  deriving DecidableEq, Repr

/-- The committed database state: the three tables and their id sequences. -/
structure DBState where
  photos : List PhotoRow
  quality_results : List QualityRow
  road_results : List RoadRow
  next_photo_id : ℕ := 1
  next_quality_id : ℕ := 1
  next_road_id : ℕ := 1
  deriving DecidableEq, Repr

/-- The empty database. -/
def DBState.empty : DBState :=
  { photos := [], quality_results := [], road_results := [] }

/-- Injected INSERT failures: which of the three single-statement inserts the
server rejects (e.g. a constraint violation), making the corresponding
cursor.execute raise. -/
structure FaultModel where
  photo_insert_fails : Bool := false
  quality_insert_fails : Bool := false
  road_insert_fails : Bool := false
  deriving DecidableEq, Repr

/-- No injected failures. -/
def FaultModel.none : FaultModel := {}

/-- Python truthiness of the Optional[str] source_image_id: None and the empty
string are falsy. -/
def truthyStr : Option String → Bool
  | Option.none => false
  | Option.some s => !s.isEmpty

/-- Embeds database_service.py, DatabaseService.check_duplicate_photo: the
primary criterion (source, source_image_id) runs first, when source_image_id is
truthy; the secondary criterion (exact location, date_taken) runs only when no
primary match was returned and both location and date_taken are present. -/
def check_duplicate_photo (st : DBState) (source : String) (source_image_id : Option String)
    (location : Option (ℚ × ℚ)) (date_taken : Option ℤ) : Option PhotoRow :=
  let primary :=
    if truthyStr source_image_id then
      st.photos.find? (fun p =>
        decide (p.source = source ∧ p.source_image_id = source_image_id))
    else Option.none
  match primary with
  | Option.some r => Option.some r
  | Option.none =>
      if location.isSome && date_taken.isSome then
        st.photos.find? (fun p =>
          decide (p.location = location ∧ p.date_taken = date_taken))
      else Option.none

/-- Embeds database_service.py, DatabaseService.save_photo: one INSERT inside
its own transaction() block, committed on return. -/
def save_photo (fm : FaultModel) (st : DBState) (source : String)
    (source_image_id : Option String) (location : Option (ℚ × ℚ))
    (date_taken : Option ℤ) (compass_angle : Option ℚ)
    (street_point_id : Option ℕ) : Except String (ℕ × DBState) :=
  if fm.photo_insert_fails then Except.error "photo insert failed"
  else
    let pid := st.next_photo_id
    let row : PhotoRow :=
      { id := pid, source := source, source_image_id := source_image_id,
        location := location, date_taken := date_taken,
        compass_angle := compass_angle, street_point_id := street_point_id }
    Except.ok (pid,
      { st with photos := st.photos ++ [row], next_photo_id := pid + 1 })

/-- Embeds database_service.py, DatabaseService.save_quality_result: one INSERT
inside its own transaction() block, committed on return. -/
def save_quality_result (fm : FaultModel) (st : DBState) (photo_id : ℕ)
    (q : ImageQualityMetrics) : Except String (ℕ × DBState) :=
  if fm.quality_insert_fails then Except.error "quality insert failed"
  else
    let qid := st.next_quality_id
    let row : QualityRow :=
      { id := qid, photo_id := photo_id, overall_score := q.overall_score,
        blur_score := q.blur_score, exposure_score := q.exposure_score,
        size_score := q.size_score,
        road_surface_percentage := q.road_surface_percentage,
        has_sufficient_road := q.has_sufficient_road, is_usable := q.is_usable,
        failure_reasons := q.failure_reasons,
        assessment_version := q.assessment_version }
    Except.ok (qid,
      { st with quality_results := st.quality_results ++ [row],
                next_quality_id := qid + 1 })

/-- Embeds database_service.py, the quality-rating bucketing inside
DatabaseService.save_road_analysis_result. -/
def quality_rating_of_score (score : ℚ) : String :=
  if score ≥ 90 then "excellent"
  else if score ≥ 75 then "good"
  else if score ≥ 50 then "fair"
  else if score ≥ 25 then "poor"
  else "severe_issues"

/-- Embeds database_service.py, DatabaseService.save_road_analysis_result: one
INSERT inside its own transaction() block, committed on return
(crack_severity_map is the identity on the four known severities, else "none"). -/
def save_road_analysis_result (fm : FaultModel) (st : DBState) (photo_id : ℕ)
    (r : RoadQualityMetrics) : Except String (ℕ × DBState) :=
  if fm.road_insert_fails then Except.error "road analysis insert failed"
  else
    let crack_severity :=
      if r.crack_severity = "none" ∨ r.crack_severity = "minor"
          ∨ r.crack_severity = "moderate" ∨ r.crack_severity = "severe" then
        r.crack_severity
      else "none"
    let rid := st.next_road_id
    let row : RoadRow :=
      { id := rid, photo_id := photo_id,
        overall_quality_score := r.overall_quality_score,
        quality_rating := quality_rating_of_score r.overall_quality_score,
        crack_confidence := r.crack_confidence, crack_severity := crack_severity,
        pothole_confidence := r.pothole_confidence, pothole_count := r.pothole_count,
        surface_roughness := r.surface_roughness,
        lane_marking_visibility := r.lane_marking_visibility,
        debris_score := r.debris_score, weather_condition := r.weather_condition,
        assessment_confidence := r.assessment_confidence,
        model_name := r.model_name, model_version := r.model_version }
    Except.ok (rid,
      { st with road_results := st.road_results ++ [row], next_road_id := rid + 1 })

/-- The dict returned by DatabasePipeline.save_pipeline_result_to_db /
process_image_with_db, as a tagged outcome. -/
inductive DbOutcome where
  | duplicate (photo_id : ℕ)
  | saved (photo_id : ℕ) (quality_id : ℕ) (road_analysis_id : Option ℕ)
  | saveFailed (msg : String)
  deriving DecidableEq, Repr

/-- Embeds src/services/pipeline/database_pipeline.py,
DatabasePipeline.save_pipeline_result_to_db.  The source wraps the three saves
in `with self.db_service.transaction():`, but that context manager opens a NEW
connection which executes no statement, while each save_* method commits its
own insert on its own fresh connection (see the note above DBState); the inner
try/except additionally swallows any exception before it can reach the outer
context manager.  The outer block is therefore a no-op on the committed state,
and a failure at step k leaves the commits of steps before k in place. -/
def save_pipeline_result_to_db (fm : FaultModel) (st : DBState) (pr : PipelineResult)
    (source : String) (source_image_id : Option String) (location : Option (ℚ × ℚ))
    (date_taken : Option ℤ) (compass_angle : Option ℚ) (street_point_id : Option ℕ) :
    DbOutcome × DBState :=
  match save_photo fm st source source_image_id location date_taken
      compass_angle street_point_id with
  | Except.error e => (DbOutcome.saveFailed e, st)
  | Except.ok (photo_id, st1) =>
      match save_quality_result fm st1 photo_id pr.quality_metrics with
      | Except.error e => (DbOutcome.saveFailed e, st1)
      | Except.ok (quality_id, st2) =>
          match pr.road_metrics with
          | Option.none => (DbOutcome.saved photo_id quality_id Option.none, st2)
          | Option.some rm =>
              match save_road_analysis_result fm st2 photo_id rm with
              | Except.error e => (DbOutcome.saveFailed e, st2)
              | Except.ok (road_analysis_id, st3) =>
                  (DbOutcome.saved photo_id quality_id (Option.some road_analysis_id), st3)

/-- Embeds database_pipeline.py, DatabasePipeline.process_image_with_db, with
save_to_db at its default True.  The base-pipeline call self.process_image is
the already-embedded process_image, so its inputs (quality environment, road
oracle) are parameters here; the duplicate check runs before it and before any
write. -/
def process_image_with_db (fm : FaultModel) (st : DBState) (c : QualityConfig)
    (env : ImageEnv) (road : Option RoadQualityMetrics) (road_raises : Bool)
    (image_path : String) (source : String) (source_image_id : Option String)
    (location : Option (ℚ × ℚ)) (date_taken : Option ℤ) (compass_angle : Option ℚ)
    (street_point_id : Option ℕ) : DbOutcome × DBState :=
  match check_duplicate_photo st source source_image_id location date_taken with
  | Option.some dup => (DbOutcome.duplicate dup.id, st)
  | Option.none =>
      let pipeline_result := process_image c env road road_raises image_path
      save_pipeline_result_to_db fm st pipeline_result source source_image_id
        location date_taken compass_angle street_point_id

/-
Rate limiter (run_parallel_analysis.py, class RateLimiter).

wait_if_needed runs entirely inside `with self.lock:`, time.sleep included, so
concurrent callers serialize: each call observes the list left by the previous
call, and its check time is at least the previous call's return time.  Times
are modelled as rationals (time.time() values); the call's check time `now` is
an input, and the function returns the new state together with the time at
which the call returns (now + wait_time when it slept).  Note that the value
appended to the list is `now`, the pre-sleep check time.
-/

/-- Embeds run_parallel_analysis.py, RateLimiter state: the configured
max_requests_per_minute and the recorded request timestamps. -/
structure RateLimiter where
  max_requests : ℕ
  requests_times : List ℚ
  deriving DecidableEq, Repr

/-- Embeds RateLimiter.wait_if_needed: lazily evicts entries with now - t >= 60,
sleeps 60 - (now - oldest) + 0.1 when the window is full, then appends `now`.
With max_requests = 0 the source would raise (min of an empty list); that case
is the unreachable `Option.none` arm, guarded by max_requests >= 1 in the
theorems. -/
def wait_if_needed (rl : RateLimiter) (now : ℚ) : RateLimiter × ℚ :=
  let kept := rl.requests_times.filter (fun t => decide (now - t < 60))
  if kept.length ≥ rl.max_requests then
    match kept.min? with
    | Option.some oldest =>
        let wait_time := 60 - (now - oldest) + 1/10
        let ret := if wait_time > 0 then now + wait_time else now
        ({ rl with requests_times := kept ++ [now] }, ret)
    | Option.none => ({ rl with requests_times := kept ++ [now] }, now)
  else ({ rl with requests_times := kept ++ [now] }, now)

/-- Runs the limiter over a sequence of lock-acquisition requests: the call's
check time is max(arrival, previous call's return time), because the sleep
happens inside the critical section.  For each call it returns the number of
recorded timestamps that survived eviction at that check, paired with the time
at which wait_if_needed returned (the admission time of the rate-limited call). -/
def runTrace (rl : RateLimiter) (prev_end : ℚ) : List ℚ → List (ℕ × ℚ)
  | [] => []
  | a :: rest =>
      let now := max a prev_end
      let kept := rl.requests_times.filter (fun t => decide (now - t < 60))
      let step := wait_if_needed rl now
      (kept.length, step.2) :: runTrace step.1 step.2 rest

/-- The admission times of a run of the limiter. -/
def runAdmits (rl : RateLimiter) (prev_end : ℚ) (arrivals : List ℚ) : List ℚ :=
  (runTrace rl prev_end arrivals).map Prod.snd

/-
Concrete fixtures used to evaluate the model at specific inputs.
-/

/-- Pixel statistics of a sharp, well-exposed, large image: every Stage-1
heuristic passes under the default thresholds. -/
def goodStats : ImageStats :=
  { lap_var := 100, dark_frac := 0, bright_frac := 0, width := 800, height := 600 }

/-- Segmentation oracle: model loaded, nothing raises, AI path computes 40%. -/
def segOK : SegEnv :=
  { model_loaded := true, ai_raises := false, ai_pct := 40,
    fb_raises := false, fb_load_ok := true, fb_pct := 0 }

/-- An image environment on which the whole gate passes. -/
def envOK : ImageEnv := { file_exists := true, stats := some goodStats, seg := segOK }

/-- A sample defect assessment. -/
def rmEx : RoadQualityMetrics :=
  { overall_quality_score := 100, crack_confidence := 0, crack_severity := "none",
    pothole_confidence := 0, pothole_count := 0, surface_roughness := 0,
    lane_marking_visibility := 1/2, debris_score := 0, weather_condition := "unknown",
    assessment_confidence := 1/2, model_name := "unknown", model_version := "unknown" }

/-- The quality assessment evaluate yields on envOK (computed below). -/
def qmOK : ImageQualityMetrics :=
  { image_path := "img", overall_score := 100, is_usable := true, failure_reasons := [],
    blur_score := 100, exposure_score := 100, size_score := 100,
    road_surface_percentage := 40, has_sufficient_road := true,
    assessment_version := "1.0.0" }

/-
Helper lemmas.
-/

/-- The heuristic failure-reason list is empty exactly when all three Stage-1
flags are down: the reasons are derived from the same statistics and the same
thresholds as the flags themselves. -/
lemma heuristic_reasons_nil_iff (c : QualityConfig) (st : ImageStats) :
    get_heuristic_failure_reasons c (check_image_quality st c) = [] ↔
      ((is_blurry st c).1 = false ∧ (is_exposed_poorly st c).1 = false ∧
        (is_too_small st c).1 = false) := by
  by_cases hb : st.lap_var < c.blur_threshold <;>
    by_cases hd : st.dark_frac > c.dark_threshold <;>
      by_cases hbr : st.bright_frac > c.bright_threshold <;>
        by_cases hw : st.width < c.min_width <;>
          by_cases hh : st.height < c.min_height <;>
            simp [get_heuristic_failure_reasons, check_image_quality, is_blurry,
              is_exposed_poorly, is_too_small, hb, hd, hbr, hw, hh]

/-- The usable flag of check_image_quality agrees with the emptiness of the
derived failure-reason list. -/
lemma heuristic_usable_iff_reasons_nil (c : QualityConfig) (st : ImageStats) :
    (check_image_quality st c).usable = true ↔
      get_heuristic_failure_reasons c (check_image_quality st c) = [] := by
  rw [heuristic_reasons_nil_iff]
  simp only [check_image_quality, is_blurry, is_exposed_poorly, is_too_small]
  simp
  tauto

/-- Concrete evaluation of the gate on envOK: everything passes, pct 40. -/
lemma evaluateT_envOK : evaluateT {} envOK "img" = (qmOK, true) := by
  norm_num [evaluateT, envOK, goodStats, segOK, qmOK, check_image_quality, is_blurry,
    is_exposed_poorly, is_too_small, get_heuristic_failure_reasons, calculate_blur_score,
    calculate_exposure_score, calculate_size_score, calculate_overall_score,
    detect_road_surface, ai_segmentation, fallback_segmentation]

/-- Every heuristic failure reason is one of the four Stage-1 reasons. -/
lemma heuristic_reason_mem (c : QualityConfig) (hr : HeurResult)
    (r : ImageFailureReason) (h : r ∈ get_heuristic_failure_reasons c hr) :
    r = ImageFailureReason.TOO_BLURRY ∨ r = ImageFailureReason.TOO_DARK ∨
      r = ImageFailureReason.TOO_BRIGHT ∨ r = ImageFailureReason.RESOLUTION_TOO_SMALL := by
  unfold get_heuristic_failure_reasons at h
  split_ifs at h <;> simp_all <;> tauto

/-- C5: for every QualityAssessment produced by the quality gate on any path
(heuristic failure, Stage-2 outcome, file-not-found, or processing error),
is_usable is true if and only if the list of failure reasons is empty. -/
theorem is_usable_iff_failure_reasons_empty (c : QualityConfig) (env : ImageEnv)
    (path : String) :
    (evaluate c env path).is_usable = true ↔ (evaluate c env path).failure_reasons = [] := by
  obtain ⟨fe, stats, seg⟩ := env
  cases fe with
  | false => simp [evaluate, evaluateT, ImageQualityMetrics.create_failed]
  | true =>
      cases stats with
      | none => simp [evaluate, evaluateT, ImageQualityMetrics.create_failed]
      | some st =>
          simp only [evaluate, evaluateT, Bool.not_true, Bool.false_eq_true, if_false]
          split
          · rename_i hne
            simp_all
          · split <;> simp

/-- C4: whenever at least one Stage-1 heuristic fails, evaluate returns
immediately with is_usable = false, a non-empty failure-reason list drawn only
from the heuristic set, overall_score = min(blur_score, exposure_score,
size_score), and Stage 2 is never invoked: the segmentation-invoked flag is
false, has_sufficient_road is false and road coverage is 0. -/
theorem heuristic_failure_short_circuits_stage2 (c : QualityConfig) (env : ImageEnv)
    (path : String) (stats : ImageStats) (hfe : env.file_exists = true)
    (hst : env.stats = some stats)
    (hfail : (check_image_quality stats c).usable = false) :
    (evaluateT c env path).2 = false ∧
    (evaluateT c env path).1.is_usable = false ∧
    (evaluateT c env path).1.failure_reasons ≠ [] ∧
    (∀ r ∈ (evaluateT c env path).1.failure_reasons,
      r = ImageFailureReason.TOO_BLURRY ∨ r = ImageFailureReason.TOO_DARK ∨
      r = ImageFailureReason.TOO_BRIGHT ∨ r = ImageFailureReason.RESOLUTION_TOO_SMALL) ∧
    (evaluateT c env path).1.overall_score =
      min (evaluateT c env path).1.blur_score
        (min (evaluateT c env path).1.exposure_score (evaluateT c env path).1.size_score) ∧
    (evaluateT c env path).1.has_sufficient_road = false ∧
    (evaluateT c env path).1.road_surface_percentage = 0 := by
  have hne : get_heuristic_failure_reasons c (check_image_quality stats c) ≠ [] := by
    intro hnil
    rw [← heuristic_usable_iff_reasons_nil] at hnil
    rw [hfail] at hnil
    exact Bool.false_ne_true hnil
  obtain ⟨fe, stats0, seg⟩ := env
  cases fe with
  | false => simp at hfe
  | true =>
      cases stats0 with
      | none => simp at hst
      | some st0 =>
          have hst0 : st0 = stats := by simpa using hst
          subst hst0
          simp only [evaluateT, Bool.not_true, Bool.false_eq_true, if_false]
          rw [if_pos hne]
          refine ⟨rfl, rfl, hne, ?_, rfl, rfl, rfl⟩
          intro r hr
          exact heuristic_reason_mem c _ r hr

/-- Pixel statistics of a blurry image (Laplacian variance 10 < default
threshold 50); the other heuristics pass. -/
def badStats : ImageStats :=
  { lap_var := 10, dark_frac := 0, bright_frac := 0, width := 800, height := 600 }

/-- An image environment failing the blur heuristic. -/
def envBlurry : ImageEnv := { file_exists := true, stats := some badStats, seg := segOK }

/-- Witness for the Stage-1 short-circuit theorem at a concrete blurry image. -/
theorem heuristic_failure_short_circuits_stage2_witness :
    (evaluateT {} envBlurry "img").2 = false ∧
    (evaluateT {} envBlurry "img").1.is_usable = false ∧
    (evaluateT {} envBlurry "img").1.failure_reasons ≠ [] := by
  have h := heuristic_failure_short_circuits_stage2 {} envBlurry "img" badStats rfl rfl
    (by norm_num [check_image_quality, is_blurry, is_exposed_poorly, is_too_small, badStats])
  exact ⟨h.1, h.2.1, h.2.2.1⟩

/-- Characterization of evaluate when Stage 1 passes: all three heuristic
sub-scores are 100 (a failing sub-score always comes with its failure reason,
so a passing image scores 100 on each heuristic), Stage 2 runs, and the
outcome is determined by detect_road_surface. -/
lemma evaluateT_stage2 (c : QualityConfig) (env : ImageEnv) (path : String)
    (stats : ImageStats) (hfe : env.file_exists = true) (hst : env.stats = some stats)
    (hpass : get_heuristic_failure_reasons c (check_image_quality stats c) = []) :
    evaluateT c env path =
      ({ image_path := path
         overall_score := calculate_overall_score 100 100 100 (detect_road_surface env.seg).1
         is_usable := (detect_road_surface env.seg).2
         failure_reasons :=
           if (detect_road_surface env.seg).2 then []
           else [ImageFailureReason.INSUFFICIENT_ROAD_SURFACE]
         blur_score := 100
         exposure_score := 100
         size_score := 100
         road_surface_percentage := (detect_road_surface env.seg).1
         has_sufficient_road := (detect_road_surface env.seg).2
         assessment_version := "1.0.0" }, true) := by
  obtain ⟨hb, he, hs⟩ := (heuristic_reasons_nil_iff c stats).mp hpass
  obtain ⟨fe, stats0, seg⟩ := env
  cases fe with
  | false => simp at hfe
  | true =>
      cases stats0 with
      | none => simp at hst
      | some st0 =>
          have hst0 : st0 = stats := by simpa using hst
          subst hst0
          simp only [evaluateT, Bool.not_true, Bool.false_eq_true, if_false]
          rw [if_neg (fun hcon => hcon hpass)]
          have hblurry : (check_image_quality st0 c).blurry = is_blurry st0 c := rfl
          have hexp : (check_image_quality st0 c).poor_exposure = is_exposed_poorly st0 c :=
            rfl
          have hsmall : (check_image_quality st0 c).too_small = is_too_small st0 c := rfl
          cases hsuff : (detect_road_surface seg).2 <;>
            simp [hblurry, hexp, hsmall, calculate_blur_score, calculate_exposure_score,
              calculate_size_score, hb, he, hs, hsuff]

/-- C6 counterexample: on an image that passes the heuristics with road
coverage 40%, the weighted heuristic score is 100 and the returned
overall_score is the clamped value 100, not heuristic_score + 8 = 108 as the
claim's example asserts. -/
theorem stage2_road40_not_heuristic_plus_eight :
    (evaluate {} envOK "img").is_usable = true ∧
    (evaluate {} envOK "img").road_surface_percentage = 40 ∧
    (evaluate {} envOK "img").blur_score * (4/10) + (evaluate {} envOK "img").exposure_score * (3/10)
      + (evaluate {} envOK "img").size_score * (3/10) = 100 ∧
    (evaluate {} envOK "img").overall_score = 100 ∧
    (evaluate {} envOK "img").overall_score ≠
      (evaluate {} envOK "img").blur_score * (4/10)
        + (evaluate {} envOK "img").exposure_score * (3/10)
        + (evaluate {} envOK "img").size_score * (3/10) + 8 := by
  have h : evaluate {} envOK "img" = qmOK := by
    show (evaluateT {} envOK "img").1 = qmOK
    rw [evaluateT_envOK]
  rw [h]
  norm_num [qmOK]

/-- C6 amended: whenever Stage 1 passes (so Stage 2 runs), the returned
overall_score equals clamp(0.4*blur + 0.3*exposure + 0.3*size + road_bonus,
0, 100) with road_bonus = min(20, road_pct/5) if road_pct >= 25 and -30
otherwise; moreover a passing Stage 1 forces blur = exposure = size = 100, so
road_pct = 40 yields clamp(100 + 8) = 100 (not heuristic_score + 8). -/
theorem stage2_overall_score_clamp_formula (c : QualityConfig) (env : ImageEnv)
    (path : String) (stats : ImageStats) (hfe : env.file_exists = true)
    (hst : env.stats = some stats)
    (hpass : get_heuristic_failure_reasons c (check_image_quality stats c) = []) :
    (evaluate c env path).blur_score = 100 ∧
    (evaluate c env path).exposure_score = 100 ∧
    (evaluate c env path).size_score = 100 ∧
    (evaluate c env path).overall_score =
      max 0 (min 100 ((evaluate c env path).blur_score * (4/10)
        + (evaluate c env path).exposure_score * (3/10)
        + (evaluate c env path).size_score * (3/10)
        + (if (evaluate c env path).road_surface_percentage ≥ 25
            then min 20 ((evaluate c env path).road_surface_percentage / 5) else -30))) ∧
    ((evaluate c env path).road_surface_percentage = 40 →
      (evaluate c env path).overall_score = 100) := by
  have h := evaluateT_stage2 c env path stats hfe hst hpass
  have hev : evaluate c env path = (evaluateT c env path).1 := rfl
  rw [hev, h]
  dsimp only
  refine ⟨rfl, rfl, rfl, rfl, ?_⟩
  intro h40
  rw [h40]
  norm_num [calculate_overall_score]

/-- Witness for the clamp-formula theorem at the concrete passing image. -/
theorem stage2_overall_score_clamp_formula_witness :
    (evaluate {} envOK "img").blur_score = 100 ∧
    (evaluate {} envOK "img").overall_score = 100 := by
  have hpass : get_heuristic_failure_reasons {} (check_image_quality goodStats {}) = [] := by
    norm_num [get_heuristic_failure_reasons, check_image_quality, is_blurry,
      is_exposed_poorly, is_too_small, goodStats]
  have h := stage2_overall_score_clamp_formula {} envOK "img" goodStats rfl rfl hpass
  have h40 : (evaluate {} envOK "img").road_surface_percentage = 40 := by
    show (evaluateT {} envOK "img").1.road_surface_percentage = 40
    rw [evaluateT_envOK]
    rfl
  exact ⟨h.1, h.2.2.2.2 h40⟩

/-- The environment of envOK with the AI segmentation computing only 10%. -/
def env10 : ImageEnv := { envOK with seg := { segOK with ai_pct := 10 } }

/-- C7 counterexample: with the model loaded and a computed road coverage of
10% — below the configurable minimum (default 25%) — the code marks the road
surface as sufficient (the AI path hardcodes a 10% cutoff), so the assessment
carries no INSUFFICIENT_ROAD_SURFACE reason and is usable. -/
theorem road_pct_ten_no_insufficient_reason :
    (10 : ℚ) < ({} : QualityConfig).min_road_surface_percentage ∧
    (evaluate {} env10 "img").road_surface_percentage = 10 ∧
    (evaluate {} env10 "img").has_sufficient_road = true ∧
    (evaluate {} env10 "img").failure_reasons = [] ∧
    (evaluate {} env10 "img").is_usable = true := by
  have hpass : get_heuristic_failure_reasons {} (check_image_quality goodStats {}) = [] := by
    norm_num [get_heuristic_failure_reasons, check_image_quality, is_blurry,
      is_exposed_poorly, is_too_small, goodStats]
  have h := evaluateT_stage2 {} env10 "img" goodStats rfl rfl hpass
  have hseg : detect_road_surface env10.seg = (10, true) := by
    norm_num [env10, segOK, detect_road_surface, ai_segmentation]
  have hev : evaluate {} env10 "img" = (evaluateT {} env10 "img").1 := rfl
  rw [hev, h, hseg]
  norm_num

/-- C7 amended: whenever Stage 2 runs, has_sufficient_road is determined by
comparing the computed coverage against a hardcoded threshold — 10% on the AI
path and 20% on the computer-vision fallback path — and not against the
configurable min_road_surface_percentage (default 25%), which detect_road_surface
never receives; whenever the chosen path reports insufficiency, the assessment
carries exactly failure reason INSUFFICIENT_ROAD_SURFACE and is_usable = false
(so road_pct = 10 yields that reason only on the fallback path). -/
theorem segmentation_threshold_hardcoded :
    (∀ e : SegEnv,
      (detect_road_surface e).2 =
        decide ((detect_road_surface e).1 ≥
          (if e.model_loaded && !e.ai_raises then 10 else 20))) ∧
    (∀ (c : QualityConfig) (env : ImageEnv) (path : String) (stats : ImageStats),
      env.file_exists = true → env.stats = some stats →
      get_heuristic_failure_reasons c (check_image_quality stats c) = [] →
      (detect_road_surface env.seg).2 = false →
      (evaluate c env path).failure_reasons = [ImageFailureReason.INSUFFICIENT_ROAD_SURFACE] ∧
      (evaluate c env path).is_usable = false) := by
  constructor
  · intro e
    obtain ⟨ml, ar, ap, fr, fl, fp⟩ := e
    cases ml <;> cases ar <;> cases fr <;> cases fl <;>
      norm_num [detect_road_surface, ai_segmentation, fallback_segmentation]
  · intro c env path stats hfe hst hpass hsuff
    have h := evaluateT_stage2 c env path stats hfe hst hpass
    have hev : evaluate c env path = (evaluateT c env path).1 := rfl
    rw [hev, h]
    dsimp only
    rw [hsuff]
    simp

/-- Segmentation oracle on the fallback path computing 10% coverage. -/
def segFB10 : SegEnv :=
  { model_loaded := false, ai_raises := false, ai_pct := 0,
    fb_raises := false, fb_load_ok := true, fb_pct := 10 }

/-- An image environment passing the heuristics whose fallback segmentation
computes 10% coverage. -/
def envFB10 : ImageEnv := { envOK with seg := segFB10 }

/-- Witness for the hardcoded-threshold theorem: on the fallback path a 10%
coverage is insufficient (10 < 20) and evaluate reports
INSUFFICIENT_ROAD_SURFACE. -/
theorem segmentation_threshold_hardcoded_witness :
    (detect_road_surface segFB10).2 = false ∧
    (evaluate {} envFB10 "img").failure_reasons =
      [ImageFailureReason.INSUFFICIENT_ROAD_SURFACE] := by
  have hpass : get_heuristic_failure_reasons {} (check_image_quality goodStats {}) = [] := by
    norm_num [get_heuristic_failure_reasons, check_image_quality, is_blurry,
      is_exposed_poorly, is_too_small, goodStats]
  have h1 := segmentation_threshold_hardcoded.1 segFB10
  have hd : (detect_road_surface segFB10).2 = false := by
    rw [h1]
    norm_num [segFB10, detect_road_surface, fallback_segmentation]
  have h2 := segmentation_threshold_hardcoded.2 {} envFB10 "img" goodStats
    rfl rfl hpass (by rw [show envFB10.seg = segFB10 from rfl]; exact hd)
  exact ⟨hd, h2.1⟩

/-- C8 counterexample: a raw crack confidence of 1.5 is passed through
unclamped into the DefectAssessment — the confidences are not clamped to
[0, 1] (only the overall quality score is clamped). -/
theorem crack_confidence_not_clamped :
    (RoadQualityMetrics.from_model_output { crack_confidence := 3/2 } {}).crack_confidence
        = 3/2 ∧
    ¬((RoadQualityMetrics.from_model_output { crack_confidence := 3/2 } {}).crack_confidence
        ≤ 1) ∧
    (RoadQualityMetrics.from_model_output { crack_confidence := 3/2 } {}).crack_severity
        = "severe" ∧
    (RoadQualityMetrics.from_model_output { crack_confidence := 3/2 } {}).overall_quality_score
        = 0 := by
  norm_num [RoadQualityMetrics.from_model_output]

/-- C8 amended: from_model_output passes the detection confidences through
unchanged (no clamping to [0, 1]); crack severity is bucketed by the
thresholds 0.2 / 0.5 / 0.8; the overall quality score is
100 * (1 - max(crack, pothole, roughness)) clamped to [0, 100]. -/
theorem from_model_output_field_mapping (p : ModelPredictions) (info : ModelInfo) :
    (RoadQualityMetrics.from_model_output p info).crack_confidence = p.crack_confidence ∧
    (RoadQualityMetrics.from_model_output p info).pothole_confidence = p.pothole_confidence ∧
    (RoadQualityMetrics.from_model_output p info).surface_roughness = p.surface_roughness ∧
    (RoadQualityMetrics.from_model_output p info).crack_severity =
      (if p.crack_confidence < 2/10 then "none"
       else if p.crack_confidence < 5/10 then "minor"
       else if p.crack_confidence < 8/10 then "moderate"
       else "severe") ∧
    (RoadQualityMetrics.from_model_output p info).overall_quality_score =
      max 0 (min 100 (100 * (1 -
        max p.crack_confidence (max p.pothole_confidence p.surface_roughness)))) := by
  exact ⟨rfl, rfl, rfl, rfl, rfl⟩

/-- Abbreviation for the photo row save_photo builds from the arguments. -/
def mkPhotoRow (pid : ℕ) (source : String) (sid : Option String) (loc : Option (ℚ × ℚ))
    (date : Option ℤ) (ca : Option ℚ) (sp : Option ℕ) : PhotoRow :=
  { id := pid, source := source, source_image_id := sid,
    location := loc, date_taken := date, compass_angle := ca, street_point_id := sp }

/-- With no injected faults, the save path commits the photo row (derived from
the request arguments), the quality row, and the optional road row, and reports
the saved outcome with the ids drawn from the sequences. -/
lemma save_noFaults (st : DBState) (pr : PipelineResult) (source : String)
    (sid : Option String) (loc : Option (ℚ × ℚ)) (date : Option ℤ) (ca : Option ℚ)
    (sp : Option ℕ) :
    (save_pipeline_result_to_db FaultModel.none st pr source sid loc date ca sp).2.photos =
      st.photos ++ [mkPhotoRow st.next_photo_id source sid loc date ca sp] ∧
    (∃ rid, (save_pipeline_result_to_db FaultModel.none st pr source sid loc date ca sp).1 =
      DbOutcome.saved st.next_photo_id st.next_quality_id rid) ∧
    (save_pipeline_result_to_db FaultModel.none st pr source sid loc date ca sp).2.next_photo_id
      = st.next_photo_id + 1 := by
  cases hr : pr.road_metrics <;>
    simp [save_pipeline_result_to_db, save_photo, save_quality_result,
      save_road_analysis_result, FaultModel.none, hr, mkPhotoRow]

/-- When the primary key is truthy and some stored row matches it, the
duplicate check returns a primary-key match (the secondary criterion is never
consulted, whatever location and date are passed). -/
lemma check_duplicate_primary_found (st : DBState) (source : String) (sid : Option String)
    (loc : Option (ℚ × ℚ)) (date : Option ℤ) (hsid : truthyStr sid = true)
    (p : PhotoRow) (hp : p ∈ st.photos) (hps : p.source = source)
    (hpid : p.source_image_id = sid) :
    ∃ q, check_duplicate_photo st source sid loc date = some q ∧
      q.source = source ∧ q.source_image_id = sid := by
  have hex : (st.photos.find?
      (fun r => decide (r.source = source ∧ r.source_image_id = sid))).isSome := by
    rw [List.find?_isSome]
    exact ⟨p, hp, by simp [hps, hpid]⟩
  obtain ⟨q, hq⟩ := Option.isSome_iff_exists.mp hex
  have hpq := List.find?_some hq
  simp only [decide_eq_true_eq] at hpq
  refine ⟨q, ?_, hpq.1, hpq.2⟩
  simp only [check_duplicate_photo, hsid, if_true, hq]

/-- C1 (code bug): the three inserts do NOT happen inside one effective
transaction.  Each save_* commits on its own fresh connection, so when the
DefectAssessment insert fails after a usable image was processed, the
ImageRecord and the QualityAssessment row both remain committed, contradicting
the documented rollback ("Transaction will be rolled back automatically"). -/
theorem road_insert_failure_keeps_photo_and_quality_rows :
    ((save_pipeline_result_to_db { road_insert_fails := true } DBState.empty
        (PipelineResult.create_success "img" qmOK rmEx)
        "mapillary" (some "X") none none none none).1 =
      DbOutcome.saveFailed "road analysis insert failed") ∧
    (save_pipeline_result_to_db { road_insert_fails := true } DBState.empty
        (PipelineResult.create_success "img" qmOK rmEx)
        "mapillary" (some "X") none none none none).2.photos.length = 1 ∧
    (save_pipeline_result_to_db { road_insert_fails := true } DBState.empty
        (PipelineResult.create_success "img" qmOK rmEx)
        "mapillary" (some "X") none none none none).2.quality_results.length = 1 ∧
    (save_pipeline_result_to_db { road_insert_fails := true } DBState.empty
        (PipelineResult.create_success "img" qmOK rmEx)
        "mapillary" (some "X") none none none none).2.road_results = [] := by
  simp [save_pipeline_result_to_db, save_photo, save_quality_result,
    save_road_analysis_result, DBState.empty, PipelineResult.create_success, qmOK, rmEx]

/-- C2: persisting the same (source, source_native_id) twice is idempotent:
with the primary key present and no prior match, the first call inserts exactly
one ImageRecord and reports the saved ids; the second call (whatever its other
arguments) hits the primary-key duplicate check before any write, returns the
Duplicate outcome carrying the first record id, and leaves the state unchanged;
and whenever any primary-key match exists the check returns a primary-key
match, never falling through to the secondary location-and-date criterion. -/
theorem persist_same_native_id_idempotent
    (st : DBState) (c : QualityConfig) (env : ImageEnv)
    (road : Option RoadQualityMetrics) (rr : Bool) (path : String)
    (source : String) (sid : Option String) (loc : Option (ℚ × ℚ)) (date : Option ℤ)
    (ca : Option ℚ) (sp : Option ℕ)
    (c2 : QualityConfig) (env2 : ImageEnv) (road2 : Option RoadQualityMetrics) (rr2 : Bool)
    (path2 : String) (loc2 : Option (ℚ × ℚ)) (date2 : Option ℤ) (ca2 : Option ℚ)
    (sp2 : Option ℕ)
    (hsid : truthyStr sid = true)
    (hdup : check_duplicate_photo st source sid loc date = none) :
    let r1 := process_image_with_db FaultModel.none st c env road rr path
      source sid loc date ca sp
    let r2 := process_image_with_db FaultModel.none r1.2 c2 env2 road2 rr2 path2
      source sid loc2 date2 ca2 sp2
    r1.2.photos.length = st.photos.length + 1 ∧
    (∃ rid, r1.1 = DbOutcome.saved st.next_photo_id st.next_quality_id rid) ∧
    r2.1 = DbOutcome.duplicate st.next_photo_id ∧
    r2.2 = r1.2 ∧
    (∀ (st' : DBState) (loc' : Option (ℚ × ℚ)) (date' : Option ℤ) (p : PhotoRow),
      p ∈ st'.photos → p.source = source → p.source_image_id = sid →
      ∃ q, check_duplicate_photo st' source sid loc' date' = some q ∧
        q.source = source ∧ q.source_image_id = sid) := by
  intro r1 r2
  have hr1 : r1 = save_pipeline_result_to_db FaultModel.none st
      (process_image c env road rr path) source sid loc date ca sp := by
    show process_image_with_db FaultModel.none st c env road rr path
        source sid loc date ca sp = _
    simp only [process_image_with_db, hdup]
  have hs := save_noFaults st (process_image c env road rr path) source sid loc date ca sp
  have hfind : st.photos.find?
      (fun r => decide (r.source = source ∧ r.source_image_id = sid)) = none := by
    cases hf : st.photos.find?
        (fun r => decide (r.source = source ∧ r.source_image_id = sid)) with
    | none => rfl
    | some q =>
        exfalso
        simp only [check_duplicate_photo, hsid, if_true, hf] at hdup
        exact Option.some_ne_none q hdup
  have hdup2 : check_duplicate_photo r1.2 source sid loc2 date2 =
      some (mkPhotoRow st.next_photo_id source sid loc date ca sp) := by
    simp only [check_duplicate_photo, hsid, if_true, hr1, hs.1, List.find?_append, hfind,
      Option.none_or]
    simp [mkPhotoRow]
  have hr2 : r2 = (DbOutcome.duplicate st.next_photo_id, r1.2) := by
    show process_image_with_db FaultModel.none r1.2 c2 env2 road2 rr2 path2
        source sid loc2 date2 ca2 sp2 = _
    simp only [process_image_with_db, hdup2, mkPhotoRow]
  refine ⟨?_, ?_, ?_, ?_, ?_⟩
  · rw [hr1, hs.1]
    simp
  · rw [hr1]
    exact hs.2.1
  · rw [hr2]
  · rw [hr2]
  · intro st' loc' date' p hp hps hpid
    exact check_duplicate_primary_found st' source sid loc' date' hsid p hp hps hpid

/-- C10: when the source-native id is absent (or empty) and the location or the
capture timestamp is also absent, the duplicate check skips both criteria and
matches nothing in any state, so each repetition of such a persist inserts a
fresh ImageRecord: two identical calls grow the photos table by two rows, each
reporting a saved (not duplicate) outcome. -/
theorem missing_keys_never_duplicate
    (source : String) (sid : Option String) (loc : Option (ℚ × ℚ)) (date : Option ℤ)
    (hsid : truthyStr sid = false) (hkey : loc = none ∨ date = none) :
    (∀ st : DBState, check_duplicate_photo st source sid loc date = none) ∧
    (∀ (st : DBState) (c : QualityConfig) (env : ImageEnv)
        (road : Option RoadQualityMetrics) (rr : Bool) (path : String)
        (ca : Option ℚ) (sp : Option ℕ),
      (process_image_with_db FaultModel.none st c env road rr path
          source sid loc date ca sp).2.photos.length = st.photos.length + 1 ∧
      (∃ qid rid, (process_image_with_db FaultModel.none st c env road rr path
          source sid loc date ca sp).1 = DbOutcome.saved st.next_photo_id qid rid) ∧
      (process_image_with_db FaultModel.none
          (process_image_with_db FaultModel.none st c env road rr path
            source sid loc date ca sp).2
          c env road rr path source sid loc date ca sp).2.photos.length =
        st.photos.length + 2) := by
  have hnone : ∀ st : DBState, check_duplicate_photo st source sid loc date = none := by
    intro st
    rcases hkey with hk | hk <;>
      simp [check_duplicate_photo, hsid, hk]
  refine ⟨hnone, ?_⟩
  intro st c env road rr path ca sp
  have hr1 : process_image_with_db FaultModel.none st c env road rr path
      source sid loc date ca sp = save_pipeline_result_to_db FaultModel.none st
      (process_image c env road rr path) source sid loc date ca sp := by
    simp only [process_image_with_db, hnone st]
  have hs1 := save_noFaults st (process_image c env road rr path) source sid loc date ca sp
  set st1 := (save_pipeline_result_to_db FaultModel.none st
    (process_image c env road rr path) source sid loc date ca sp).2 with hst1
  have hr2 : process_image_with_db FaultModel.none st1 c env road rr path
      source sid loc date ca sp = save_pipeline_result_to_db FaultModel.none st1
      (process_image c env road rr path) source sid loc date ca sp := by
    simp only [process_image_with_db, hnone st1]
  have hs2 := save_noFaults st1 (process_image c env road rr path) source sid loc date ca sp
  refine ⟨?_, ?_, ?_⟩
  · rw [hr1, hs1.1]
    simp
  · rw [hr1]
    obtain ⟨rid, hrid⟩ := hs1.2.1
    exact ⟨st.next_quality_id, rid, hrid⟩
  · rw [hr1, ← hst1, hr2, hs2.1]
    simp only [List.length_append, List.length_cons, List.length_nil]
    rw [hs1.1]
    simp

/-- An image environment whose file is missing (the gate returns the
FILE_NOT_FOUND failure without touching any image capability). -/
def envMissing : ImageEnv := { file_exists := false, stats := none, seg := segOK }

/-- Witness for the idempotence theorem at a concrete first persist of
(mapillary, X) into the empty database. -/
theorem persist_same_native_id_idempotent_witness :
    (process_image_with_db FaultModel.none DBState.empty {} envMissing none false "img"
        "mapillary" (some "X") none none none none).2.photos.length =
      DBState.empty.photos.length + 1 ∧
    (process_image_with_db FaultModel.none
        (process_image_with_db FaultModel.none DBState.empty {} envMissing none false "img"
          "mapillary" (some "X") none none none none).2
        {} envMissing none false "img2" "mapillary" (some "X") none none none none).1 =
      DbOutcome.duplicate DBState.empty.next_photo_id := by
  have h := persist_same_native_id_idempotent DBState.empty {} envMissing none false "img"
    "mapillary" (some "X") none none none none
    {} envMissing none false "img2" none none none none
    (by decide) (by decide)
  obtain ⟨h1, _, h3, _, _⟩ := h
  exact ⟨h1, h3⟩

/-- Witness for the missing-keys theorem: with no native id and no location,
two identical persists into the empty database insert two photo rows. -/
theorem missing_keys_never_duplicate_witness :
    check_duplicate_photo DBState.empty "manual_upload" none none none = none ∧
    (process_image_with_db FaultModel.none
        (process_image_with_db FaultModel.none DBState.empty {} envMissing none false "img"
          "manual_upload" none none none none none).2
        {} envMissing none false "img" "manual_upload" none none none none none).2.photos.length =
      DBState.empty.photos.length + 2 := by
  have h := missing_keys_never_duplicate "manual_upload" none none none (by decide) (Or.inl rfl)
  exact ⟨h.1 DBState.empty, (h.2 DBState.empty {} envMissing none false "img" none none).2.2⟩

/-- Filtering strictly shrinks a list that contains an element failing the
predicate. -/
lemma length_filter_lt_of_mem_not {α : Type} (p : α → Bool) :
    ∀ (l : List α) (x : α), x ∈ l → p x = false → (l.filter p).length < l.length := by
  intro l
  induction l with
  | nil => intro x hx _; simp at hx
  | cons a t ih =>
      intro x hx hpx
      rcases List.mem_cons.mp hx with rfl | hxt
      · simp only [List.filter_cons, hpx, List.length_cons]
        exact Nat.lt_succ_of_le (t.length_filter_le p)
      · cases hpa : p a with
        | false =>
            simp only [List.filter_cons, hpa, List.length_cons]
            exact Nat.lt_succ_of_le (t.length_filter_le p)
        | true =>
            simp only [List.filter_cons, hpa, List.length_cons]
            exact Nat.succ_lt_succ (ih x hxt hpx)

/-- Invariant carried between limiter calls: the recorded list never holds more
than N + 1 stamps, and when it holds exactly N + 1 the previous call slept, so
some stamp is at least 60 seconds older than the time e at which that call
returned (and before which no later call can run). -/
def LimInv (N : ℕ) (L : List ℚ) (e : ℚ) : Prop :=
  L.length ≤ N + 1 ∧ (L.length = N + 1 → ∃ m ∈ L, e - m ≥ 60)

/-- One limiter call: at most N stamps survive eviction, the new state appends
the check time to the survivors, the call returns no earlier than its check
time, and the invariant is re-established at the return time. -/
lemma wait_if_needed_inv (N : ℕ) (hN : 1 ≤ N) (L : List ℚ) (e now : ℚ)
    (hnow : e ≤ now) (hInv : LimInv N L e) :
    (L.filter (fun t => decide (now - t < 60))).length ≤ N ∧
    (wait_if_needed ⟨N, L⟩ now).1 =
      ⟨N, L.filter (fun t => decide (now - t < 60)) ++ [now]⟩ ∧
    now ≤ (wait_if_needed ⟨N, L⟩ now).2 ∧
    LimInv N (L.filter (fun t => decide (now - t < 60)) ++ [now])
      (wait_if_needed ⟨N, L⟩ now).2 := by
  set kept := L.filter (fun t => decide (now - t < 60)) with hkept
  have hkle : kept.length ≤ N := by
    rcases Nat.lt_or_ge L.length (N + 1) with h | h
    · exact Nat.lt_succ_iff.mp (lt_of_le_of_lt (L.length_filter_le _) h)
    · have heq : L.length = N + 1 := le_antisymm hInv.1 h
      obtain ⟨m, hmL, hme⟩ := hInv.2 heq
      have hpm : (fun t => decide (now - t < 60)) m = false := by
        simp only [decide_eq_false_iff_not, not_lt]
        linarith
      have hlt := length_filter_lt_of_mem_not (fun t => decide (now - t < 60)) L m hmL hpm
      rw [← hkept] at hlt
      omega
  have hfst : (wait_if_needed ⟨N, L⟩ now).1 = ⟨N, kept ++ [now]⟩ := by
    unfold wait_if_needed
    dsimp only
    rw [← hkept]
    split
    · split <;> rfl
    · rfl
  refine ⟨hkle, hfst, ?_, ?_⟩
  all_goals
    by_cases hfull : N ≤ kept.length
  case pos =>
    have hkeq : kept.length = N := le_antisymm hkle hfull
    obtain ⟨m0, hm0⟩ : ∃ m0, kept.min? = some m0 := by
      cases hk : kept with
      | nil => rw [hk] at hkeq; simp at hkeq; omega
      | cons y ys => exact ⟨ys.foldl min y, List.min?_cons'⟩
    have hm0mem : m0 ∈ kept := List.min?_mem min_choice hm0
    have hm0lt : now - m0 < 60 := by
      have hmf := List.mem_filter.mp (hkept ▸ hm0mem)
      simpa using hmf.2
    have hret : (wait_if_needed ⟨N, L⟩ now).2 = m0 + (60 + 1/10) := by
      unfold wait_if_needed
      dsimp only
      rw [← hkept, if_pos hfull, hm0]
      dsimp only
      rw [if_pos (show (60 : ℚ) - (now - m0) + 1/10 > 0 by linarith)]
      ring
    rw [hret]
    linarith
  case neg =>
    have hret : (wait_if_needed ⟨N, L⟩ now).2 = now := by
      unfold wait_if_needed
      dsimp only
      rw [← hkept, if_neg hfull]
    rw [hret]
  case pos =>
    have hkeq : kept.length = N := le_antisymm hkle hfull
    obtain ⟨m0, hm0⟩ : ∃ m0, kept.min? = some m0 := by
      cases hk : kept with
      | nil => rw [hk] at hkeq; simp at hkeq; omega
      | cons y ys => exact ⟨ys.foldl min y, List.min?_cons'⟩
    have hm0mem : m0 ∈ kept := List.min?_mem min_choice hm0
    have hm0lt : now - m0 < 60 := by
      have hmf := List.mem_filter.mp (hkept ▸ hm0mem)
      simpa using hmf.2
    have hret : (wait_if_needed ⟨N, L⟩ now).2 = m0 + (60 + 1/10) := by
      unfold wait_if_needed
      dsimp only
      rw [← hkept, if_pos hfull, hm0]
      dsimp only
      rw [if_pos (show (60 : ℚ) - (now - m0) + 1/10 > 0 by linarith)]
      ring
    constructor
    · simp [hkeq]
    · intro _
      refine ⟨m0, List.mem_append_left _ hm0mem, ?_⟩
      rw [hret]
      linarith
  case neg =>
    have hklt : kept.length < N := lt_of_not_ge hfull
    constructor
    · simp only [List.length_append, List.length_cons, List.length_nil]
      omega
    · intro heq
      simp only [List.length_append, List.length_cons, List.length_nil] at heq
      omega

/-- Along any serialized run of calls that starts from an empty record list, at
every check at most N recorded timestamps survive the lazy eviction. -/
lemma runTrace_counts (N : ℕ) (hN : 1 ≤ N) :
    ∀ (arrivals : List ℚ) (L : List ℚ) (e : ℚ), LimInv N L e →
      ∀ x ∈ runTrace ⟨N, L⟩ e arrivals, x.1 ≤ N := by
  intro arrivals
  induction arrivals with
  | nil => intro L e _ x hx; simp [runTrace] at hx
  | cons a rest ih =>
      intro L e hInv x hx
      have hstep := wait_if_needed_inv N hN L e (max a e) (le_max_right a e) hInv
      rw [runTrace] at hx
      rcases List.mem_cons.mp hx with rfl | hxt
      · exact hstep.1
      · rw [hstep.2.1] at hxt
        exact ih _ _ hstep.2.2.2 x hxt

/-- C9 counterexample: with a limit of 1 request per minute, calls arriving at
times 0, 0 and 60.1 are admitted at 0, 60.1 and 60.1 — the second call sleeps
but records its pre-sleep check time 0, which the third call then evicts — so
the 60-second window ending at 60.1 contains two admitted calls, exceeding the
configured maximum. -/
theorem rate_limiter_window_bound_cex :
    runAdmits { max_requests := 1, requests_times := [] } 0 [0, 0, 601/10] =
      [0, 601/10, 601/10] ∧
    ¬(((runAdmits { max_requests := 1, requests_times := [] } 0 [0, 0, 601/10]).filter
        (fun t => decide (601/10 - 60 < t ∧ t ≤ 601/10))).length ≤ 1) := by
  have h : runAdmits { max_requests := 1, requests_times := [] } 0 [0, 0, 601/10] =
      [0, 601/10, 601/10] := by
    norm_num [runAdmits, runTrace, wait_if_needed, List.min?_cons', List.filter]
  refine ⟨h, ?_⟩
  rw [h]
  norm_num [List.filter]

/-- C9 amended: a call arriving while N recorded timestamps lie within the
trailing 60-second window sleeps until 60.1 seconds after the oldest of them
and then records its pre-sleep arrival time (entries older than 60 seconds
being evicted lazily on each check); consequently at every check at most N
recorded timestamps survive eviction — but because the recorded time is the
pre-sleep check time rather than the admission time, the number of admitted
calls inside a real 60-second window can exceed N. -/
theorem rate_limiter_sleep_and_eviction_bound :
    (∀ (rl : RateLimiter) (now m : ℚ),
      (rl.requests_times.filter (fun t => decide (now - t < 60))).min? = some m →
      rl.max_requests ≤ (rl.requests_times.filter (fun t => decide (now - t < 60))).length →
      wait_if_needed rl now =
        ({ rl with requests_times :=
            rl.requests_times.filter (fun t => decide (now - t < 60)) ++ [now] },
          m + (60 + 1/10))) ∧
    (∀ (N : ℕ), 1 ≤ N → ∀ (arrivals : List ℚ),
      ∀ x ∈ runTrace { max_requests := N, requests_times := [] } 0 arrivals, x.1 ≤ N) := by
  constructor
  · intro rl now m hmin hlen
    have hmmem : m ∈ rl.requests_times.filter (fun t => decide (now - t < 60)) :=
      List.min?_mem min_choice hmin
    have hmlt : now - m < 60 := by
      have hmf := List.mem_filter.mp hmmem
      simpa using hmf.2
    unfold wait_if_needed
    dsimp only
    rw [if_pos hlen, hmin]
    dsimp only
    rw [if_pos (show (60 : ℚ) - (now - m) + 1/10 > 0 by linarith)]
    have harith : now + (60 - (now - m) + 1/10) = m + (60 + 1/10) := by ring
    rw [harith]
  · intro N hN arrivals
    refine runTrace_counts N hN arrivals [] 0 ⟨by simp, ?_⟩
    intro h
    simp at h

/-- Witness for the sleep-and-eviction theorem: a full window of one stamp at
time 0 makes the call at time 0 sleep until 60.1 and record stamp 0, and on
the concrete run 0, 0, 60.1 every post-eviction count is at most 1. -/
theorem rate_limiter_sleep_and_eviction_bound_witness :
    wait_if_needed { max_requests := 1, requests_times := [0] } 0 =
      ({ max_requests := 1, requests_times := [0, 0] }, 0 + (60 + 1/10)) ∧
    ((runTrace { max_requests := 1, requests_times := [] } 0 [0, 0, 601/10]).all
      (fun x => decide (x.1 ≤ 1))) = true := by
  constructor
  · have h := rate_limiter_sleep_and_eviction_bound.1
      { max_requests := 1, requests_times := [0] } 0 0
      (by norm_num [List.filter, List.min?_cons'])
      (by norm_num [List.filter])
    rw [h]
    norm_num [List.filter]
  · rw [List.all_eq_true]
    intro x hx
    have h := rate_limiter_sleep_and_eviction_bound.2 1 le_rfl [0, 0, 601/10] x hx
    simpa using h


/-- C3: the Defect Analyzer is invoked iff the Quality Gate returned usable;
the resulting road_metrics equal the analyzer output exactly when the gate was
usable and the analyzer did not raise (so present iff usable and non-null); a
null analyzer result downgrades the outcome to a quality failure with reason
PROCESSING_ERROR even though the gate passed. -/
theorem defect_analyzer_iff_gate_usable (c : QualityConfig) (env : ImageEnv)
    (road : Option RoadQualityMetrics) (road_raises : Bool) (path : String) :
    (process_imageT c env road road_raises path).2 = (evaluate c env path).is_usable ∧
    (process_imageT c env road road_raises path).1.road_metrics =
      (if (evaluate c env path).is_usable && !road_raises then road else none) ∧
    (process_imageT c env road road_raises path).1.road_metrics.isSome =
      ((evaluate c env path).is_usable && road.isSome && !road_raises) ∧
    ((evaluate c env path).is_usable = true → road_raises = false → road = none →
      (process_imageT c env road road_raises path).1.processed_successfully = false ∧
      (process_imageT c env road road_raises path).1.quality_metrics.is_usable = false ∧
      (process_imageT c env road road_raises path).1.quality_metrics.failure_reasons =
        [ImageFailureReason.PROCESSING_ERROR]) := by
  cases hu : (evaluate c env path).is_usable <;>
    cases road_raises <;>
      cases road <;>
        simp [process_imageT, hu, PipelineResult.create_quality_failed,
          PipelineResult.create_success, ImageQualityMetrics.create_failed]

/-- Witness for the gate-analyzer transition theorem: a usable image whose
analyzer returns null is downgraded to a PROCESSING_ERROR quality failure. -/
theorem defect_analyzer_iff_gate_usable_witness :
    (process_imageT {} envOK none false "img").2 = true ∧
    (process_imageT {} envOK none false "img").1.processed_successfully = false ∧
    (process_imageT {} envOK none false "img").1.quality_metrics.failure_reasons =
      [ImageFailureReason.PROCESSING_ERROR] := by
  have h := defect_analyzer_iff_gate_usable {} envOK none false "img"
  have hu : (evaluate {} envOK "img").is_usable = true := by
    show (evaluateT {} envOK "img").1.is_usable = true
    rw [evaluateT_envOK]
    rfl
  have h5 := h.2.2.2 hu rfl rfl
  refine ⟨?_, h5.1, h5.2.2⟩
  rw [h.1, hu]

end Road
